import Mathlib

/-!
Shallow embedding of the navix grid-world core (fork `annasoligo/navix`):
the transition functions of `src/navix/transitions.py` and the `Room`
environment of `src/navix/environments/room.py`, together with models of
the helpers they import (`grid.py`, `states.py`, `environment.py` are not
part of the excerpt and are modelled from the specification where needed).

Machine integers in the source are JAX `int32` arrays; none of the
properties verified here exercises 32-bit overflow, so positions and grid
cells are embedded as `Int` and counters as `Nat`.
-/

namespace Navix

/-- Random seeds (JAX PRNG keys) are embedded as natural numbers. -/
abbrev Seed := Nat

/-- A grid position `(row, col)`, as in the source's `position` arrays. -/
abbrev Position := Int × Int

/-- Modelled from the spec: the closed set of entity kinds
(player, goal, key, door, ball, wall). -/
inductive Kind where
  | player
  | goal
  | keyItem
  | door
  | ball
  | wall
deriving DecidableEq, Repr, Fintype

/-- Modelled from the spec: a struct-of-arrays batch of entities of one
kind: equal-length parallel sequences of positions, directions and state
tags (spec §3, "Entity"). Only `positions` is touched by the code under
verification; `directions` and `tags` carry the remaining per-entity
attributes. -/
structure Batch where
  positions : List Position
  directions : List Nat
  tags : List Nat
deriving DecidableEq, Repr

/-- Modelled from the spec: the `State` aggregate of `states.py`
(spec §3): grid reference, mapping kind → entity batch, splittable random
seed, step counter. The kind → batch mapping is an association list. -/
structure State where
  grid : List (List Int)
  entities : List (Kind × Batch)
  key : Seed
  stepCount : Nat
deriving DecidableEq, Repr

/-- Modelled from the spec: dictionary lookup in the kind → batch mapping
(`state.entities[k]` / `k in state.entities` in the source). -/
def lookupKind (k : Kind) : List (Kind × Batch) → Option Batch
  | [] => none
  | kb :: rest => if kb.1 = k then some kb.2 else lookupKind k rest

/-- Modelled from the spec: `state.set_balls(balls)` of `states.py`, a
replace-style update of the ball batch in the kind → batch mapping
(spec §4.2, replace-style updates). -/
def setBalls (ents : List (Kind × Batch)) (b : Batch) : List (Kind × Batch) :=
  ents.map (fun kb => if kb.1 = Kind.ball then (Kind.ball, b) else kb)

/-- Modelled from the spec: the splittable-seed abstraction (spec §5):
`jax.random.split(key, n)` deterministically derives `n` independent
child seeds from a parent seed. -/
def splitSeed (s : Seed) (n : Nat) : List Seed :=
  (List.range n).map (fun i => 31 * s + i + 1)

/-- Modelled from the spec: `jax.random.randint(key, (), 0, 4)`, a draw of
one of the 4 discrete headings from a seed (spec §4.1,
`random_directions`). -/
def randDir (s : Seed) : Nat :=
  s % 4

/-- Modelled from the spec: `translate(position, direction)` of `grid.py`
moves one cell in the given heading and checks nothing (spec §4.2);
heading codes follow the source's east/south/west/north order. -/
def translate (p : Position) (d : Nat) : Position :=
  match d with
  | 0 => (p.1, p.2 + 1)
  | 1 => (p.1 + 1, p.2)
  | 2 => (p.1, p.2 - 1)
  | _ => (p.1 - 1, p.2)

/-- Modelled from the spec: `positions_equal(batchA, positionB)` of
`grid.py`: the per-entity-in-batch boolean vector of position equality
(spec §4.2). -/
def positions_equal (batch : List Position) (p : Position) : List Bool :=
  batch.map (fun q => decide (q = p))

/-- JAX integer-array indexing `grid[i]` under `jit`: a negative index is
wrapped once by the axis size (numpy semantics) and the result is clamped
into the valid range (XLA gather clamping). -/
def wrapClampIdx (n : Nat) (i : Int) : Nat :=
  let j := if i < 0 then i + n else i
  (min (max j 0) ((n : Int) - 1)).toNat

/-- The grid cell value `state.grid[tuple(position)]` read by
`_can_spawn_there`. -/
def gridAt (g : List (List Int)) (p : Position) : Int :=
  let row := g.getD (wrapClampIdx g.length p.1) []
  row.getD (wrapClampIdx row.length p.2) 0

/-- `_can_spawn_there(state, ball)` of `transitions.py`: the cell must be
walkable per the grid, and for each kind-batch the loop reads
`positions_equal(entities[k].position, ball.position)[0]` — the equality
test of the batch's entry at index 0 only — and requires its negation. -/
def can_spawn_there (s : State) (ballPos : Position) : Bool :=
  decide (gridAt s.grid ballPos = 0) &&
    s.entities.all (fun kb => !((positions_equal kb.2.positions ballPos).getD 0 false))

/-- One step of the `jax.lax.scan` body `try_one_direction` inside
`try_movements`: draw a heading from the attempt key, translate the
ball's (original) position, test occupancy, and keep the first accepted
candidate. -/
def try_one_direction (s : State) (p0 : Position) (carry : Position × Bool) (k : Seed) :
    Position × Bool :=
  let d := randDir k
  let newPosition := translate p0 d
  let canMove := can_spawn_there s newPosition
  (if carry.2 then carry.1 else if canMove then newPosition else carry.1,
   carry.2 || canMove)

/-- `try_movements(ball, key)` of `transitions.py`: split the attempt key
into 3, scan `try_one_direction` over the attempt keys starting from
`(ball.position, False)`, and return the final carried position. -/
def try_movements (s : State) (p0 : Position) (k : Seed) : Position :=
  ((splitSeed k 3).foldl (try_one_direction s p0) (p0, false)).1

/-- `update_balls(state)` of `transitions.py`: when a ball batch is
present, split `state.key` into `len(balls) + 1` keys, map
`try_movements` (with the pass-entry state) over the balls paired with
keys 1..n, store the new positions in the ball batch, and replace the
state's key with key 0. -/
def update_balls (s : State) : State :=
  match lookupKind Kind.ball s.entities with
  | none => s
  | some balls =>
    let ks := splitSeed s.key (balls.positions.length + 1)
    let newPositions :=
      (balls.positions.zip (ks.drop 1)).map (fun pk => try_movements s pk.1 pk.2)
    let balls2 := { balls with positions := newPositions }
    { s with entities := setBalls s.entities balls2, key := ks.headD s.key }

/-- `jax.lax.switch(index, branches, state)`: the index is clamped into
`[0, len(branches) - 1]` (JAX documented semantics; no error is raised
for an out-of-range index). -/
def lax_switch (branches : List (State → State)) (idx : Int) (s : State) : State :=
  (branches.getD (min (max idx 0) ((branches.length : Int) - 1)).toNat id) s

/-- `deterministic_transition(state, action, actions_set)` of
`transitions.py`: `jax.lax.switch(action, actions_set, state)`. -/
def deterministic_transition (s : State) (action : Int)
    (actions_set : List (State → State)) : State :=
  lax_switch actions_set action s

/-- `stochastic_transition(state, action, actions_set)` of
`transitions.py`: the selected action followed by `update_balls`. -/
def stochastic_transition (s : State) (action : Int)
    (actions_set : List (State → State)) : State :=
  update_balls (lax_switch actions_set action s)

/-- Modelled from the spec: the action-dispatch contract of §4.4/§7 —
an `action_index` outside `[0, len(action_table))` is an `InvalidAction`
error and no state is returned. -/
def deterministic_transition_checked (s : State) (action : Int)
    (actions_set : List (State → State)) : Option State :=
  if 0 ≤ action ∧ action < (actions_set.length : Int) then
    some (lax_switch actions_set action s)
  else
    none

/-- All entity positions of a state, across every kind-batch. -/
def allPositions (s : State) : List Position :=
  s.entities.flatMap (fun kb => kb.2.positions)

/-- Modelled from the spec: which kinds are blocking entities (glossary:
an entity that cannot share a cell with another blocking entity); goals
and keys are non-blocking (the player terminates on the goal's cell). -/
def blocking : Kind → Bool
  | Kind.player => true
  | Kind.door => true
  | Kind.ball => true
  | Kind.wall => true
  | _ => false

/-- The positions of all blocking entities of a state. -/
def blockingPositions (s : State) : List Position :=
  s.entities.flatMap (fun kb => if blocking kb.1 then kb.2.positions else [])

/-- The occupancy invariant of spec §8: no two blocking entities share a
position, and no entity occupies an obstacle cell. -/
def OccupancyInvariant (s : State) : Prop :=
  (blockingPositions s).Nodup ∧ ∀ p ∈ allPositions s, gridAt s.grid p = 0

/-- The walkability half of the occupancy invariant: every entity sits on
a grid cell of value 0. -/
def EntitiesOnWalkable (s : State) : Prop :=
  ∀ p ∈ allPositions s, gridAt s.grid p = 0

instance decidableOccupancyInvariant (s : State) : Decidable (OccupancyInvariant s) :=
  inferInstanceAs
    (Decidable ((blockingPositions s).Nodup ∧ ∀ p ∈ allPositions s, gridAt s.grid p = 0))

instance decidableEntitiesOnWalkable (s : State) : Decidable (EntitiesOnWalkable s) :=
  inferInstanceAs (Decidable (∀ p ∈ allPositions s, gridAt s.grid p = 0))

/-- Modelled from the spec: reachability (spec §8, "for all reachable
states"): states produced from an initial (reset) state by any sequence
of step calls, each step being the default transition
`stochastic_transition` with the environment's action table. -/
inductive Reachable (table : List (State → State)) (init : State) : State → Prop where
  | refl : Reachable table init init
  | step (t : State) (a : Int) :
      Reachable table init t → Reachable table init (stochastic_transition t a table)

/-- Modelled from the spec: the walkable cells of a grid (spec §4.1),
enumerated as in-range coordinates whose cell value is 0. -/
def walkable_cells (g : List (List Int)) : List Position :=
  (((List.range g.length).product (List.range (g.headD []).length)).map
      (fun ij => ((ij.1 : Int), (ij.2 : Int)))).filter
    (fun p => gridAt g p = 0)

/-- Modelled from the spec: `random_positions(seed, grid, n)` of
`grid.py` (spec §4.1): `n` distinct positions sampled without
replacement from the walkable cells; an explicit insufficient-free-cells
error (here `none`) if fewer than `n` walkable cells exist. -/
def random_positions (seed : Seed) (g : List (List Int)) (n : Nat) :
    Option (List Position) :=
  if n ≤ (walkable_cells g).length then
    some (((walkable_cells g).rotate seed).take n)
  else
    none

/-- Modelled from the spec: `random_directions(seed, n)` of `grid.py`
(spec §4.1): `n` headings drawn from independent child seeds. -/
def random_directions (seed : Seed) (n : Nat) : List Nat :=
  (splitSeed seed n).map randDir

/-- Modelled from the spec: the `Timestep` record of `environment.py`
(spec §3): step index, opaque observation, last action, scalar reward,
step-type (0 = ONGOING, 1 = TERMINATED, 2 = TRUNCATED), resulting
state. The scalar reward is embedded as an integer. -/
structure Timestep where
  t : Int
  observation : Int
  action : Int
  reward : Int
  step_type : Int
  state : State
deriving DecidableEq, Repr

/-- Modelled from the spec: the `Room` environment object (spec §4.6):
its grid (built once by `Room.create`), step budget, and the external
observation strategy, embedded as an opaque integer-valued function. -/
structure Room where
  grid : List (List Int)
  maxSteps : Nat
  obsFn : State → Int

/-- The initial `State` assembled by `Room.reset(key)` from the drawn
positions `ps`: the splits of the reset seed are `key = split 0`,
`k1 = split 1` (positions) and `k2 = split 2` (direction); the player
carries the drawn direction, the goal only its position; the step
counter is 0. -/
def resetState (r : Room) (seed : Seed) (ps : List Position) : State :=
  { grid := r.grid,
    entities :=
      [(Kind.player,
        { positions := [ps.getD 0 (0, 0)],
          directions := [(random_directions ((splitSeed seed 3).getD 2 0) 1).getD 0 0],
          tags := [] }),
       (Kind.goal, { positions := [ps.getD 1 (0, 0)], directions := [], tags := [] })],
    key := (splitSeed seed 3).getD 0 0,
    stepCount := 0 }

/-- `Room.reset(key)` of `room.py`: split the seed into
`(key, k1, k2)`, draw 2 distinct positions with `k1` and 1 direction
with `k2`, build the player and goal batches and the initial `State`
(step counter 0), and return a `Timestep` with `t = 0`, `action = 0`,
`reward = 0`, `step_type = 0` (ONGOING). Placement failure
(insufficient free cells) aborts with no Timestep. -/
def room_reset (r : Room) (seed : Seed) : Option Timestep :=
  match random_positions ((splitSeed seed 3).getD 1 0) r.grid 2 with
  | none => none
  | some ps =>
    some
      { t := 0, observation := r.obsFn (resetState r seed ps), action := 0,
        reward := 0, step_type := 0, state := resetState r seed ps }

/-- The state with its seed zeroed out: two states agree on everything
but their carried random seed exactly when their seed-erasures agree. -/
def eraseSeed (s : State) : State :=
  { s with key := 0 }

/-- The default position used to read list entries that are known to be
in range. -/
def dpos : Position := (0, 0)

theorem splitSeed_length (s : Seed) (n : Nat) : (splitSeed s n).length = n := by
  simp [splitSeed]

theorem randDir_lt_four (k : Seed) : randDir k < 4 :=
  Nat.mod_lt _ (by norm_num)

theorem foldl_try_found (s : State) (p0 : Position) (ks : List Seed) (c : Position) :
    ks.foldl (try_one_direction s p0) (c, true) = (c, true) := by
  induction ks with
  | nil => rfl
  | cons k ks ih => simpa [try_one_direction] using ih

theorem foldl_try_all_rejected (s : State) (p0 : Position) (ks : List Seed) (c : Position)
    (h : ∀ k ∈ ks, can_spawn_there s (translate p0 (randDir k)) = false) :
    ks.foldl (try_one_direction s p0) (c, false) = (c, false) := by
  induction ks with
  | nil => rfl
  | cons k ks ih =>
    have hk := h k (by simp)
    have hstep : try_one_direction s p0 (c, false) k = (c, false) := by
      simp [try_one_direction, hk]
    rw [List.foldl_cons, hstep]
    exact ih (fun q hq => h q (by simp [hq]))

theorem foldl_try_first_pass (s : State) (p0 : Position) (ks1 : List Seed) (k : Seed)
    (ks2 : List Seed) (c : Position)
    (h1 : ∀ q ∈ ks1, can_spawn_there s (translate p0 (randDir q)) = false)
    (hk : can_spawn_there s (translate p0 (randDir k)) = true) :
    ((ks1 ++ k :: ks2).foldl (try_one_direction s p0) (c, false)).1
      = translate p0 (randDir k) := by
  rw [List.foldl_append, foldl_try_all_rejected s p0 ks1 c h1]
  have hstep : try_one_direction s p0 (c, false) k = (translate p0 (randDir k), true) := by
    simp [try_one_direction, hk]
  rw [List.foldl_cons, hstep, foldl_try_found]

theorem foldl_try_invariant (s : State) (p0 : Position) (ks : List Seed)
    (Q : Position → Prop) (c : Position) (b : Bool) (hc : Q c)
    (hcand : ∀ k, can_spawn_there s (translate p0 (randDir k)) = true →
      Q (translate p0 (randDir k))) :
    Q ((ks.foldl (try_one_direction s p0) (c, b)).1) := by
  induction ks generalizing c b with
  | nil => exact hc
  | cons k ks ih =>
    rw [List.foldl_cons]
    have hq : Q (try_one_direction s p0 (c, b) k).1 := by
      cases b with
      | true => simpa [try_one_direction] using hc
      | false =>
        cases hcan : can_spawn_there s (translate p0 (randDir k)) with
        | true => simpa [try_one_direction, hcan] using hcand k hcan
        | false => simpa [try_one_direction, hcan] using hc
    have := ih (try_one_direction s p0 (c, b) k).1 (try_one_direction s p0 (c, b) k).2 hq
    simpa using this

theorem lookupKind_cons (k : Kind) (kb : Kind × Batch) (rest : List (Kind × Batch)) :
    lookupKind k (kb :: rest) = if kb.1 = k then some kb.2 else lookupKind k rest :=
  rfl

theorem setBalls_cons (kb : Kind × Batch) (rest : List (Kind × Batch)) (b2 : Batch) :
    setBalls (kb :: rest) b2
      = (if kb.1 = Kind.ball then (Kind.ball, b2) else kb) :: setBalls rest b2 :=
  rfl

theorem lookupKind_setBalls_ball (ents : List (Kind × Batch)) (b0 b2 : Batch)
    (h : lookupKind Kind.ball ents = some b0) :
    lookupKind Kind.ball (setBalls ents b2) = some b2 := by
  induction ents with
  | nil => simp [lookupKind] at h
  | cons kb ents ih =>
    rw [setBalls_cons]
    by_cases hk : kb.1 = Kind.ball
    · rw [if_pos hk, lookupKind_cons, if_pos rfl]
    · rw [lookupKind_cons, if_neg hk] at h
      rw [if_neg hk, lookupKind_cons, if_neg hk]
      exact ih h

theorem lookupKind_setBalls_ne (ents : List (Kind × Batch)) (b2 : Batch) (k : Kind)
    (hk : ¬k = Kind.ball) :
    lookupKind k (setBalls ents b2) = lookupKind k ents := by
  induction ents with
  | nil => rfl
  | cons kb ents ih =>
    rw [setBalls_cons]
    by_cases hb : kb.1 = Kind.ball
    · rw [if_pos hb, lookupKind_cons, lookupKind_cons,
        if_neg (fun hcon : (Kind.ball, b2).1 = k => hk hcon.symm),
        if_neg (fun hcon : kb.1 = k => hk (hcon.symm.trans hb))]
      exact ih
    · rw [if_neg hb, lookupKind_cons, lookupKind_cons]
      by_cases hkk : kb.1 = k
      · rw [if_pos hkk, if_pos hkk]
      · rw [if_neg hkk, if_neg hkk]
        exact ih

theorem getD_zip_map_try (s : State) (l : List Position) (m : List Seed) (i : Nat)
    (hi : i < l.length) (him : i < m.length) :
    ((l.zip m).map (fun pk => try_movements s pk.1 pk.2)).getD i dpos
      = try_movements s (l.getD i dpos) (m.getD i 0) := by
  have hz : i < (l.zip m).length := by
    rw [List.length_zip]
    exact lt_min hi him
  have hm2 : i < ((l.zip m).map (fun pk => try_movements s pk.1 pk.2)).length := by
    simpa using hz
  rw [List.getD_eq_getElem _ _ hm2, List.getElem_map, List.getElem_zip,
    List.getD_eq_getElem _ _ hi, List.getD_eq_getElem _ _ him]

/-- The new ball batch stored by `update_balls`. -/
def updatedBallBatch (s : State) (b : Batch) : Batch :=
  { b with
    positions :=
      (b.positions.zip ((splitSeed s.key (b.positions.length + 1)).drop 1)).map
        (fun pk => try_movements s pk.1 pk.2) }

theorem update_balls_eq_of_lookup (s : State) (b : Batch)
    (h : lookupKind Kind.ball s.entities = some b) :
    update_balls s =
      { s with
        entities := setBalls s.entities (updatedBallBatch s b),
        key := (splitSeed s.key (b.positions.length + 1)).headD s.key } := by
  unfold update_balls
  rw [h]
  rfl

theorem update_balls_position_char (s : State) (b : Batch)
    (h : lookupKind Kind.ball s.entities = some b) (i : Nat)
    (hi : i < b.positions.length) :
    lookupKind Kind.ball (update_balls s).entities = some (updatedBallBatch s b) ∧
      (updatedBallBatch s b).positions.getD i dpos
        = try_movements s (b.positions.getD i dpos)
            ((splitSeed s.key (b.positions.length + 1)).getD (i + 1) 0) := by
  constructor
  · rw [update_balls_eq_of_lookup s b h]
    exact lookupKind_setBalls_ball s.entities b (updatedBallBatch s b) h
  · have hdrop : i < ((splitSeed s.key (b.positions.length + 1)).drop 1).length := by
      rw [List.length_drop, splitSeed_length]
      omega
    have hfull : i + 1 < (splitSeed s.key (b.positions.length + 1)).length := by
      rw [splitSeed_length]
      omega
    have hd : ((splitSeed s.key (b.positions.length + 1)).drop 1).getD i 0
        = (splitSeed s.key (b.positions.length + 1)).getD (i + 1) 0 := by
      rw [List.getD_eq_getElem _ _ hdrop, List.getElem_drop,
        List.getD_eq_getElem _ _ hfull]
      simp [Nat.add_comm]
    rw [updatedBallBatch, getD_zip_map_try s b.positions _ i hi hdrop, hd]

theorem updatedBallBatch_positions_length (s : State) (b : Batch) :
    (updatedBallBatch s b).positions.length = b.positions.length := by
  rw [updatedBallBatch]
  simp [List.length_zip, splitSeed_length]

/-- Fixture for C4: a ball boxed in by obstacle cells on all four sides. -/
def c4_batch : Batch :=
  { positions := [((1 : Int), (1 : Int))], directions := [0], tags := [0] }

/-- Fixture for C4: a 3×3 grid whose only walkable cell holds the ball. -/
def c4_state : State :=
  { grid := [[1, 1, 1], [1, 0, 1], [1, 1, 1]],
    entities := [(Kind.ball, c4_batch)],
    key := 5,
    stepCount := 0 }

/-- C4: for every state containing a ball batch and every ball in it, if
all 3 stochastic movement attempts are rejected by the occupancy check,
the ball's position after the Stochastic Mover pass equals its position
before the pass. -/
theorem c4_all_rejected_keeps_position (s : State) (b : Batch)
    (h : lookupKind Kind.ball s.entities = some b) (i : Nat)
    (hi : i < b.positions.length)
    (hrej : ∀ k ∈ splitSeed ((splitSeed s.key (b.positions.length + 1)).getD (i + 1) 0) 3,
      can_spawn_there s (translate (b.positions.getD i dpos) (randDir k)) = false) :
    ∃ b2, lookupKind Kind.ball (update_balls s).entities = some b2 ∧
      b2.positions.getD i dpos = b.positions.getD i dpos := by
  obtain ⟨hl, hp⟩ := update_balls_position_char s b h i hi
  refine ⟨updatedBallBatch s b, hl, ?_⟩
  rw [hp]
  unfold try_movements
  rw [foldl_try_all_rejected s (b.positions.getD i dpos) _ _ hrej]

/-- Witness for C4 at the boxed-in fixture: the ball keeps position
`(1, 1)`. -/
theorem c4_all_rejected_keeps_position_witness :
    ∃ b2, lookupKind Kind.ball (update_balls c4_state).entities = some b2 ∧
      b2.positions.getD 0 dpos = c4_batch.positions.getD 0 dpos :=
  c4_all_rejected_keeps_position c4_state c4_batch (by decide) 0 (by decide) (by decide)

/-- Fixture for C5 and C10: one ball in a 3×5 corridor, free to its east. -/
def c5_batch : Batch :=
  { positions := [((1 : Int), (1 : Int))], directions := [2], tags := [7] }

/-- Fixture for C5 and C10: the corridor state, seed 0. -/
def c5_state : State :=
  { grid := [[1, 1, 1, 1, 1], [1, 0, 0, 0, 1], [1, 1, 1, 1, 1]],
    entities := [(Kind.ball, c5_batch)],
    key := 0,
    stepCount := 0 }

/-- C5: for every ball updated by the Stochastic Mover, the accepted
position is the first candidate in attempt order that passes the
occupancy check: if every attempt before `k` is rejected and `k`'s
candidate passes, the ball's new position is `k`'s candidate, whatever
the remaining attempt keys `ks2` would have produced. -/
theorem c5_first_passing_candidate_accepted (s : State) (b : Batch)
    (h : lookupKind Kind.ball s.entities = some b) (i : Nat)
    (hi : i < b.positions.length) (ks1 ks2 : List Seed) (k : Seed)
    (hsplit : splitSeed ((splitSeed s.key (b.positions.length + 1)).getD (i + 1) 0) 3
      = ks1 ++ k :: ks2)
    (h1 : ∀ q ∈ ks1,
      can_spawn_there s (translate (b.positions.getD i dpos) (randDir q)) = false)
    (hk : can_spawn_there s (translate (b.positions.getD i dpos) (randDir k)) = true) :
    ∃ b2, lookupKind Kind.ball (update_balls s).entities = some b2 ∧
      b2.positions.getD i dpos = translate (b.positions.getD i dpos) (randDir k) := by
  obtain ⟨hl, hp⟩ := update_balls_position_char s b h i hi
  refine ⟨updatedBallBatch s b, hl, ?_⟩
  rw [hp]
  unfold try_movements
  rw [hsplit]
  exact foldl_try_first_pass s (b.positions.getD i dpos) ks1 k ks2 _ h1 hk

/-- Witness for C5 at the corridor fixture: attempt 1 (key 63, heading
north) is rejected, attempt 2 (key 64, heading east) passes, and the
ball indeed moves east to `(1, 2)`. -/
theorem c5_first_passing_candidate_accepted_witness :
    ∃ b2, lookupKind Kind.ball (update_balls c5_state).entities = some b2 ∧
      b2.positions.getD 0 dpos = translate (c5_batch.positions.getD 0 dpos) (randDir 64) :=
  c5_first_passing_candidate_accepted c5_state c5_batch (by decide) 0 (by decide)
    [63] [65] 64 (by decide) (by decide) (by decide)

/-- Fixture for C6: a ball next to a free cell, distinct key. -/
def c6_batch : Batch :=
  { positions := [((1 : Int), (2 : Int))], directions := [1], tags := [0] }

/-- Fixture for C6. -/
def c6_state : State :=
  { grid := [[1, 1, 1, 1, 1], [1, 0, 0, 0, 1], [1, 1, 1, 1, 1]],
    entities := [(Kind.ball, c6_batch)],
    key := 9,
    stepCount := 3 }

/-- C6: during one Stochastic Mover pass, ball `i`'s outcome is
`try_movements` evaluated at the pass-entry snapshot `s` and ball `i`'s
own sub-seed (split `i + 1` of `state.key`): the occupancy checks never
see other balls' in-flight results, so each ball's outcome is a function
of the shared snapshot and its own sub-seed only. -/
theorem c6_snapshot_fixed_at_pass_entry (s : State) (b : Batch)
    (h : lookupKind Kind.ball s.entities = some b) (i : Nat)
    (hi : i < b.positions.length) :
    ∃ b2, lookupKind Kind.ball (update_balls s).entities = some b2 ∧
      b2.positions.getD i dpos
        = try_movements s (b.positions.getD i dpos)
            ((splitSeed s.key (b.positions.length + 1)).getD (i + 1) 0) :=
  ⟨updatedBallBatch s b, (update_balls_position_char s b h i hi).1,
    (update_balls_position_char s b h i hi).2⟩

/-- Witness for C6 at its fixture. -/
theorem c6_snapshot_fixed_at_pass_entry_witness :
    ∃ b2, lookupKind Kind.ball (update_balls c6_state).entities = some b2 ∧
      b2.positions.getD 0 dpos
        = try_movements c6_state (c6_batch.positions.getD 0 dpos)
            ((splitSeed c6_state.key (c6_batch.positions.length + 1)).getD 1 0) :=
  c6_snapshot_fixed_at_pass_entry c6_state c6_batch (by decide) 0 (by decide)

/-- C10: `update_balls` changes only the ball batch's positions and the
state's key: grid, step counter, every non-ball kind's batch, and the
ball batch's directions, tags and length are unchanged, and each ball's
new position is its old position or one single-cell translate of it in
one of the 4 headings. -/
theorem c10_update_balls_frame (s : State) (b : Batch)
    (h : lookupKind Kind.ball s.entities = some b) :
    (update_balls s).grid = s.grid ∧
    (update_balls s).stepCount = s.stepCount ∧
    (∀ k, ¬k = Kind.ball →
      lookupKind k (update_balls s).entities = lookupKind k s.entities) ∧
    ∃ b2, lookupKind Kind.ball (update_balls s).entities = some b2 ∧
      b2.directions = b.directions ∧ b2.tags = b.tags ∧
      b2.positions.length = b.positions.length ∧
      ∀ i, i < b.positions.length →
        b2.positions.getD i dpos = b.positions.getD i dpos ∨
        ∃ d, d < 4 ∧ b2.positions.getD i dpos = translate (b.positions.getD i dpos) d := by
  rw [update_balls_eq_of_lookup s b h]
  refine ⟨rfl, rfl, fun k hk => lookupKind_setBalls_ne s.entities _ k hk,
    updatedBallBatch s b, lookupKind_setBalls_ball s.entities b _ h, rfl, rfl,
    updatedBallBatch_positions_length s b, ?_⟩
  intro i hi
  have hdrop : i < ((splitSeed s.key (b.positions.length + 1)).drop 1).length := by
    rw [List.length_drop, splitSeed_length]
    omega
  have hpos : (updatedBallBatch s b).positions
      = (b.positions.zip ((splitSeed s.key (b.positions.length + 1)).drop 1)).map
          (fun pk => try_movements s pk.1 pk.2) := rfl
  rw [hpos, getD_zip_map_try s b.positions _ i hi hdrop]
  unfold try_movements
  exact foldl_try_invariant s (b.positions.getD i dpos) _
    (fun q => q = b.positions.getD i dpos ∨
      ∃ d, d < 4 ∧ q = translate (b.positions.getD i dpos) d)
    (b.positions.getD i dpos) false (Or.inl rfl)
    (fun k hk => Or.inr ⟨randDir k, randDir_lt_four k, rfl⟩)

/-- An action table all of whose actions preserve the occupancy
invariant (the spec-modelled guarantee of §4.4 that actions route
position changes through the occupancy checker). -/
def PreservesOccupancyInvariant (table : List (State → State)) : Prop :=
  ∀ f ∈ table, ∀ t : State, OccupancyInvariant t → OccupancyInvariant (f t)

/-- An action table all of whose actions keep every entity on a walkable
cell. -/
def PreservesEntitiesOnWalkable (table : List (State → State)) : Prop :=
  ∀ f ∈ table, ∀ t : State, EntitiesOnWalkable t → EntitiesOnWalkable (f t)

theorem can_spawn_there_walkable (s : State) (p : Position)
    (h : can_spawn_there s p = true) : gridAt s.grid p = 0 := by
  rw [can_spawn_there, Bool.and_eq_true] at h
  exact of_decide_eq_true h.1

theorem lookupKind_mem (k : Kind) (ents : List (Kind × Batch)) (b : Batch)
    (h : lookupKind k ents = some b) : (k, b) ∈ ents := by
  induction ents with
  | nil => simp [lookupKind] at h
  | cons kb ents ih =>
    rw [lookupKind_cons] at h
    by_cases hk : kb.1 = k
    · rw [if_pos hk] at h
      obtain ⟨k1, b1⟩ := kb
      obtain rfl : k1 = k := hk
      obtain rfl : b1 = b := Option.some.inj h
      exact List.mem_cons_self _ _
    · rw [if_neg hk] at h
      exact List.mem_cons_of_mem _ (ih h)

theorem update_balls_eq_of_none (s : State)
    (h : lookupKind Kind.ball s.entities = none) : update_balls s = s := by
  unfold update_balls
  rw [h]

theorem update_balls_grid (s : State) : (update_balls s).grid = s.grid := by
  cases hb : lookupKind Kind.ball s.entities with
  | none => rw [update_balls_eq_of_none s hb]
  | some b => rw [update_balls_eq_of_lookup s b hb]

theorem update_balls_entities_of_lookup (s : State) (b : Batch)
    (h : lookupKind Kind.ball s.entities = some b) :
    (update_balls s).entities = setBalls s.entities (updatedBallBatch s b) := by
  rw [update_balls_eq_of_lookup s b h]

theorem mem_allPositions (s : State) (kb : Kind × Batch) (p : Position)
    (hkb : kb ∈ s.entities) (hp : p ∈ kb.2.positions) : p ∈ allPositions s := by
  rw [allPositions, List.mem_flatMap]
  exact ⟨kb, hkb, hp⟩

theorem update_balls_preserves_walkable (t : State) (ht : EntitiesOnWalkable t) :
    EntitiesOnWalkable (update_balls t) := by
  intro p hp
  rw [update_balls_grid]
  cases hb : lookupKind Kind.ball t.entities with
  | none =>
    rw [update_balls_eq_of_none t hb] at hp
    exact ht p hp
  | some b =>
    rw [allPositions, update_balls_entities_of_lookup t b hb, List.mem_flatMap] at hp
    obtain ⟨kb, hkb, hpkb⟩ := hp
    obtain ⟨kb0, hkb0, rfl⟩ := List.mem_map.1 hkb
    by_cases hball : kb0.1 = Kind.ball
    · rw [if_pos hball] at hpkb
      have hpos : (updatedBallBatch t b).positions
          = (b.positions.zip ((splitSeed t.key (b.positions.length + 1)).drop 1)).map
              (fun pk => try_movements t pk.1 pk.2) := rfl
      rw [hpos, List.mem_map] at hpkb
      obtain ⟨pk, hpk, rfl⟩ := hpkb
      obtain ⟨q, k0⟩ := pk
      have hq : q ∈ b.positions := (List.of_mem_zip hpk).1
      have hgw : gridAt t.grid q = 0 :=
        ht q (mem_allPositions t (Kind.ball, b) q (lookupKind_mem _ _ _ hb) hq)
      unfold try_movements
      exact foldl_try_invariant t q _ (fun x => gridAt t.grid x = 0) q false hgw
        (fun k hk => can_spawn_there_walkable t _ hk)
    · rw [if_neg hball] at hpkb
      exact ht _ (mem_allPositions t kb0 _ hkb0 hpkb)

theorem lax_switch_preserves_walkable (table : List (State → State))
    (htab : PreservesEntitiesOnWalkable table) (a : Int) (t : State)
    (ht : EntitiesOnWalkable t) : EntitiesOnWalkable (lax_switch table a t) := by
  unfold lax_switch
  by_cases hlen : (min (max a 0) ((table.length : Int) - 1)).toNat < table.length
  · have hmem : table.getD (min (max a 0) ((table.length : Int) - 1)).toNat id ∈ table := by
      rw [List.getD_eq_getElem _ _ hlen]
      exact List.getElem_mem hlen
    exact htab _ hmem t ht
  · rw [List.getD_eq_default _ _ (Nat.le_of_not_lt hlen)]
    exact ht

/-- Fixture for C3: the identity action. -/
def c3_noop : State → State :=
  fun s => s

/-- Fixture for C3: the one-action table of the identity action. -/
def c3_table : List (State → State) :=
  [c3_noop]

/-- Fixture for C3: two balls at `(1, 1)` and `(1, 3)` of a corridor
whose only free cell between them is `(1, 2)`. -/
def c3_init : State :=
  { grid := [[1, 1, 1, 1, 1], [1, 0, 0, 0, 1], [1, 1, 1, 1, 1]],
    entities :=
      [(Kind.ball,
        { positions := [((1 : Int), (1 : Int)), ((1 : Int), (3 : Int))],
          directions := [0, 0], tags := [0, 0] })],
    key := 0,
    stepCount := 0 }

/-- C3 counterexample: from an invariant-satisfying initial state, with
an action table whose single action preserves the invariant, one step of
the default transition reaches a state in which both balls occupy
`(1, 2)`: the Stochastic Mover tests each ball's candidate against the
pass-entry snapshot, so both moves are accepted and two blocking
entities end up sharing a position. -/
theorem c3_occupancy_invariant_counterexample :
    PreservesOccupancyInvariant c3_table ∧
    OccupancyInvariant c3_init ∧
    Reachable c3_table c3_init (stochastic_transition c3_init 0 c3_table) ∧
    ¬OccupancyInvariant (stochastic_transition c3_init 0 c3_table) := by
  refine ⟨?_, by decide, Reachable.step c3_init 0 Reachable.refl, by decide⟩
  intro f hf t ht
  have hfe : f = c3_noop := by simpa [c3_table] using hf
  rw [hfe]
  exact ht

/-- C3 amended: along every reachable sequence (actions assumed to keep
entities on walkable cells, as the spec requires of them), every entity
stays on a walkable cell — the obstacle-cell half of the occupancy
invariant holds; the no-shared-cell half does not (see the
counterexample). -/
theorem c3_entities_stay_walkable (table : List (State → State)) (init s : State)
    (htab : PreservesEntitiesOnWalkable table) (hinit : EntitiesOnWalkable init)
    (hr : Reachable table init s) : EntitiesOnWalkable s := by
  induction hr with
  | refl => exact hinit
  | step t a hr ih =>
    exact update_balls_preserves_walkable _
      (lax_switch_preserves_walkable table htab a t ih)

/-- Witness for the amended C3: one stochastic step from the two-ball
corridor state (empty action table) keeps all entities on walkable
cells. -/
theorem c3_entities_stay_walkable_witness :
    EntitiesOnWalkable (stochastic_transition c3_init 0 []) :=
  c3_entities_stay_walkable [] c3_init _ (fun f hf => absurd hf (List.not_mem_nil f))
    (by decide) (Reachable.step c3_init 0 Reachable.refl)

/-- Fixture for C1: one ball batch of two balls; the second ball
occupies the candidate cell `(1, 2)`. -/
def c1_state : State :=
  { grid := [[1, 1, 1, 1, 1], [1, 0, 0, 0, 1], [1, 1, 1, 1, 1]],
    entities :=
      [(Kind.ball,
        { positions := [((1 : Int), (1 : Int)), ((1 : Int), (2 : Int))],
          directions := [0, 0], tags := [0, 0] })],
    key := 0,
    stepCount := 0 }

/-- C1 (evaluation at the failing input): the candidate cell `(1, 2)` is
grid-walkable but occupied by the ball batch's entry at index 1, yet
`_can_spawn_there` returns `true`, because its entity loop reads
`positions_equal(entities[k].position, ball.position)[0]` and so tests
only entry 0 of each kind-batch. The claim requires `false` here. -/
theorem c1_occupied_cell_reported_spawnable :
    can_spawn_there c1_state ((1 : Int), (2 : Int)) = true ∧
    ((1 : Int), (2 : Int)) ∈ allPositions c1_state ∧
    gridAt c1_state.grid ((1 : Int), (2 : Int)) = 0 := by
  decide

/-- Fixture for C2: an action that increments the step counter by 1. -/
def c2_incr_one : State → State :=
  fun s => { s with stepCount := s.stepCount + 1 }

/-- Fixture for C2: an action that increments the step counter by 2. -/
def c2_incr_two : State → State :=
  fun s => { s with stepCount := s.stepCount + 2 }

/-- Fixture for C2: a two-action table. -/
def c2_table : List (State → State) :=
  [c2_incr_one, c2_incr_two]

/-- Fixture for C2: a minimal state. -/
def c2_state : State :=
  { grid := [[0]], entities := [], key := 0, stepCount := 0 }

/-- C2 counterexample: action index 5 is outside `[0, 2)`, yet
`deterministic_transition` returns a state — the output of the clamped
action at index 1 — whereas the spec-modelled checked dispatcher
(`InvalidAction`) returns no state. The out-of-range index is silently
clamped, refuting the claim. -/
theorem c2_out_of_range_not_error :
    deterministic_transition c2_state 5 c2_table = c2_incr_two c2_state ∧
    c2_incr_two c2_state ≠ c2_state ∧
    deterministic_transition_checked c2_state 5 c2_table = none := by
  decide

/-- C2 amended: an out-of-range action index is clamped into
`[0, len - 1]` — a negative index acts like index 0 and an index at or
above the table length acts like the last index — and the corresponding
action's state is returned; no error occurs. -/
theorem c2_out_of_range_clamped (s : State) (a : Int)
    (table : List (State → State))
    (h : a < 0 ∨ (table.length : Int) ≤ a) :
    deterministic_transition s a table
      = deterministic_transition s
          (if a < 0 then 0 else (table.length : Int) - 1) table := by
  have hidx : (min (max a 0) ((table.length : Int) - 1)).toNat
      = (min (max (if a < 0 then 0 else (table.length : Int) - 1) 0)
          ((table.length : Int) - 1)).toNat := by
    rcases h with h | h
    · rw [if_pos h]
      omega
    · rw [if_neg (by omega)]
      omega
  unfold deterministic_transition lax_switch
  rw [hidx]

/-- Witness for the amended C2: index 7 on the two-action table behaves
as the last index. -/
theorem c2_out_of_range_clamped_witness :
    deterministic_transition c2_state 7 c2_table
      = deterministic_transition c2_state
          (if (7 : Int) < 0 then 0 else ((c2_table.length : Int) - 1)) c2_table :=
  c2_out_of_range_clamped c2_state 7 c2_table (Or.inr (by decide))

/-- Fixture for C7: an action that copies the carried seed into the step
counter. -/
def c7_leak : State → State :=
  fun s => { s with stepCount := s.key }

/-- Fixture for C7: the one-action table containing the seed-reading
action. -/
def c7_table : List (State → State) :=
  [c7_leak]

/-- Fixture for C7: seed 0. -/
def c7_s1 : State :=
  { grid := [[0]], entities := [], key := 0, stepCount := 0 }

/-- Fixture for C7: same state with seed 1. -/
def c7_s2 : State :=
  { grid := [[0]], entities := [], key := 1, stepCount := 0 }

/-- C7 counterexample: the claim quantifies over every action table, but
`deterministic_transition` applies the selected action to the whole
state including its seed: with an action that reads the seed, two states
differing only in seed yield next states that differ beyond the seed. -/
theorem c7_seed_dependent_table_counterexample :
    eraseSeed c7_s1 = eraseSeed c7_s2 ∧
    eraseSeed (deterministic_transition c7_s1 0 c7_table)
      ≠ eraseSeed (deterministic_transition c7_s2 0 c7_table) := by
  decide

/-- C7 amended: the dispatch itself consumes no randomness: for every
action table whose actions do not read the carried seed (they map
seed-agreeing states to seed-agreeing states), any two states differing
only in the seed yield next states identical except possibly in the
seed. -/
theorem c7_seed_oblivious_dispatch (table : List (State → State)) (a : Int)
    (s1 s2 : State)
    (htab : ∀ f ∈ table, ∀ t1 t2 : State,
      eraseSeed t1 = eraseSeed t2 → eraseSeed (f t1) = eraseSeed (f t2))
    (hs : eraseSeed s1 = eraseSeed s2) :
    eraseSeed (deterministic_transition s1 a table)
      = eraseSeed (deterministic_transition s2 a table) := by
  unfold deterministic_transition lax_switch
  by_cases hlen : (min (max a 0) ((table.length : Int) - 1)).toNat < table.length
  · have hmem : table.getD (min (max a 0) ((table.length : Int) - 1)).toNat id ∈ table := by
      rw [List.getD_eq_getElem _ _ hlen]
      exact List.getElem_mem hlen
    exact htab _ hmem s1 s2 hs
  · rw [List.getD_eq_default _ _ (Nat.le_of_not_lt hlen)]
    exact hs

/-- Fixture for the C7 witness: the identity action. -/
def c7_noop : State → State :=
  fun s => s

/-- Witness for the amended C7 on a seed-oblivious table. -/
theorem c7_seed_oblivious_dispatch_witness :
    eraseSeed (deterministic_transition c7_s1 0 [c7_noop])
      = eraseSeed (deterministic_transition c7_s2 0 [c7_noop]) :=
  c7_seed_oblivious_dispatch [c7_noop] 0 c7_s1 c7_s2
    (by
      intro f hf t1 t2 ht
      have hfe : f = c7_noop := by simpa using hf
      rw [hfe]
      exact ht)
    (by decide)

/-- Fixture for C9: a ball batch introduced by an action. -/
def c9_ball_batch : Batch :=
  { positions := [((1 : Int), (1 : Int))], directions := [0], tags := [0] }

/-- Fixture for C9: an action that installs a ball batch. -/
def c9_add_ball : State → State :=
  fun s => { s with entities := [(Kind.ball, c9_ball_batch)] }

/-- Fixture for C9: the one-action table containing the ball-creating
action. -/
def c9_table : List (State → State) :=
  [c9_add_ball]

/-- Fixture for C9: a ball-free state. -/
def c9_state : State :=
  { grid := [[1, 1, 1], [1, 0, 1], [1, 1, 1]], entities := [], key := 0,
    stepCount := 0 }

/-- C9 counterexample: the claim quantifies over every action table, but
the ball pass runs on the post-action state: with an action that
installs a ball batch into a ball-free state, `stochastic_transition`
differs from `deterministic_transition` (the ball pass consumes the
seed). -/
theorem c9_ball_creating_action_counterexample :
    lookupKind Kind.ball c9_state.entities = none ∧
    stochastic_transition c9_state 0 c9_table
      ≠ deterministic_transition c9_state 0 c9_table := by
  decide

/-- C9 amended: whenever the post-action state carries no ball batch (in
particular when the input state has none and no action introduces one),
the ball-update pass is the identity and the stochastic transition
coincides with the deterministic one, seed and entities included. -/
theorem c9_no_balls_stochastic_eq_deterministic (s : State) (a : Int)
    (table : List (State → State))
    (h : lookupKind Kind.ball (deterministic_transition s a table).entities = none) :
    stochastic_transition s a table = deterministic_transition s a table := by
  unfold deterministic_transition at h ⊢
  unfold stochastic_transition update_balls
  rw [h]

/-- Witness for the amended C9 on the empty action table. -/
theorem c9_no_balls_stochastic_eq_deterministic_witness :
    stochastic_transition c9_state 0 [] = deterministic_transition c9_state 0 [] :=
  c9_no_balls_stochastic_eq_deterministic c9_state 0 [] (by decide)

/-- Witness for C10 at the corridor fixture. -/
theorem c10_update_balls_frame_witness :
    (update_balls c5_state).grid = c5_state.grid ∧
    (update_balls c5_state).stepCount = c5_state.stepCount ∧
    (∀ k, ¬k = Kind.ball →
      lookupKind k (update_balls c5_state).entities = lookupKind k c5_state.entities) ∧
    ∃ b2, lookupKind Kind.ball (update_balls c5_state).entities = some b2 ∧
      b2.directions = c5_batch.directions ∧ b2.tags = c5_batch.tags ∧
      b2.positions.length = c5_batch.positions.length ∧
      ∀ i, i < c5_batch.positions.length →
        b2.positions.getD i dpos = c5_batch.positions.getD i dpos ∨
        ∃ d, d < 4 ∧
          b2.positions.getD i dpos = translate (c5_batch.positions.getD i dpos) d :=
  c10_update_balls_frame c5_state c5_batch (by decide)

theorem walkable_cells_nodup (g : List (List Int)) : (walkable_cells g).Nodup := by
  unfold walkable_cells
  refine List.Nodup.filter _ (List.Nodup.map ?_ ?_)
  · intro a b hab
    obtain ⟨a1, a2⟩ := a
    obtain ⟨b1, b2⟩ := b
    simp only [Prod.mk.injEq] at hab ⊢
    exact ⟨Nat.cast_inj.1 hab.1, Nat.cast_inj.1 hab.2⟩
  · exact (List.nodup_range _).product (List.nodup_range _)

theorem random_positions_spec (seed : Seed) (g : List (List Int)) (n : Nat)
    (ps : List Position) (h : random_positions seed g n = some ps) :
    ps.Nodup ∧ ps.length = n ∧ ∀ p ∈ ps, p ∈ walkable_cells g := by
  unfold random_positions at h
  by_cases hn : n ≤ (walkable_cells g).length
  · rw [if_pos hn] at h
    obtain rfl : ((walkable_cells g).rotate seed).take n = ps := Option.some.inj h
    refine ⟨(List.take_sublist _ _).nodup (List.nodup_rotate.2 (walkable_cells_nodup g)),
      ?_, ?_⟩
    · rw [List.length_take, List.length_rotate]
      exact Nat.min_eq_left hn
    · intro p hp
      exact List.mem_rotate.1 ((List.take_sublist _ _).subset hp)
  · rw [if_neg hn] at h
    exact absurd h (by simp)

theorem nodup_two_getD_ne (l : List Position) (hl : l.Nodup) (h2 : 2 ≤ l.length) :
    l.getD 0 dpos ≠ l.getD 1 dpos := by
  rcases l with _ | ⟨a, l2⟩
  · simp at h2
  rcases l2 with _ | ⟨b, t⟩
  · simp at h2
  intro hab
  have hab2 : a = b := hab
  have ha : a ∉ b :: t := (List.nodup_cons.1 hl).1
  rw [hab2] at ha
  exact ha (List.mem_cons_self b t)

/-- C8: for every seed, `Room.reset` on a room with at least 2 walkable
cells returns a Timestep, and every Timestep it returns has step index
0, step-type ONGOING (0), reward 0 and action 0 (the no-op sentinel),
the state's step counter is 0, and the player and goal are placed at
distinct positions drawn by the random samplers from the walkable
cells. -/
theorem c8_reset_timestep (r : Room) (seed : Seed)
    (hcells : 2 ≤ (walkable_cells r.grid).length) :
    (∃ ts, room_reset r seed = some ts) ∧
    ∀ ts, room_reset r seed = some ts →
      ts.t = 0 ∧ ts.step_type = 0 ∧ ts.reward = 0 ∧ ts.action = 0 ∧
      ts.state.stepCount = 0 ∧
      ∃ pb gb, lookupKind Kind.player ts.state.entities = some pb ∧
        lookupKind Kind.goal ts.state.entities = some gb ∧
        pb.positions.getD 0 dpos ≠ gb.positions.getD 0 dpos ∧
        pb.positions.getD 0 dpos ∈ walkable_cells r.grid ∧
        gb.positions.getD 0 dpos ∈ walkable_cells r.grid := by
  have hro : random_positions ((splitSeed seed 3).getD 1 0) r.grid 2
      = some (((walkable_cells r.grid).rotate ((splitSeed seed 3).getD 1 0)).take 2) := by
    unfold random_positions
    rw [if_pos hcells]
  constructor
  · exact ⟨_, by unfold room_reset; rw [hro]⟩
  · intro ts h
    unfold room_reset at h
    split at h
    · exact absurd h (by simp)
    · rename_i ps heq
      obtain rfl := Option.some.inj h
      obtain ⟨hnd, hlen, hmem⟩ := random_positions_spec _ _ _ _ heq
      have hb0 : 0 < ps.length := by omega
      have hb1 : 1 < ps.length := by omega
      have h0 : ps.getD 0 dpos ∈ ps := by
        rw [List.getD_eq_getElem _ _ hb0]
        exact List.getElem_mem hb0
      have h1 : ps.getD 1 dpos ∈ ps := by
        rw [List.getD_eq_getElem _ _ hb1]
        exact List.getElem_mem hb1
      exact ⟨rfl, rfl, rfl, rfl, rfl, _, _, rfl, rfl,
        nodup_two_getD_ne ps hnd (by omega), hmem _ h0, hmem _ h1⟩

/-- Fixture for C8: a 4×4 bordered room with a 2×2 walkable interior. -/
def c8_room : Room :=
  { grid := [[1, 1, 1, 1], [1, 0, 0, 1], [1, 0, 0, 1], [1, 1, 1, 1]],
    maxSteps := 100,
    obsFn := fun _ => 0 }

/-- Witness for C8 at the 4×4 room with seed 0. -/
theorem c8_reset_timestep_witness :
    (∃ ts, room_reset c8_room 0 = some ts) ∧
    ∀ ts, room_reset c8_room 0 = some ts →
      ts.t = 0 ∧ ts.step_type = 0 ∧ ts.reward = 0 ∧ ts.action = 0 ∧
      ts.state.stepCount = 0 ∧
      ∃ pb gb, lookupKind Kind.player ts.state.entities = some pb ∧
        lookupKind Kind.goal ts.state.entities = some gb ∧
        pb.positions.getD 0 dpos ≠ gb.positions.getD 0 dpos ∧
        pb.positions.getD 0 dpos ∈ walkable_cells c8_room.grid ∧
        gb.positions.getD 0 dpos ∈ walkable_cells c8_room.grid :=
  c8_reset_timestep c8_room 0 (by decide)

end Navix
